import Mathlib

/-!
Shallow embedding of the photo lifecycle pipeline of `src/index.tsx` of the
alvart repository: frame normalization (`processImage`), the photo store and
its persistence effects, the develop state tracker (`recentPhotoId` plus the
timers scheduled by `handleCapture`), the frame composer
(`generatePolaroidCanvas`) and the per-photo view (`InstantPhoto`).

Machine integers of the source are modelled as `Nat` (timestamps, pixel
sizes) and `ℚ` (canvas coordinates, which the source computes with JS number
division). Platform primitives (JPEG encoding, JSON serialization) are
modelled at their interface, as documented on each definition.
-/

namespace Alvart

/-- The `Photo` record, `src/index.tsx` lines 6-10: an id string, a data URL
string holding the encoded image, and a millisecond timestamp. -/
structure Photo where
  id : String
  dataUrl : String
  timestamp : Nat
deriving DecidableEq

/-- Constant from `src/index.tsx` line 13. -/
def STORAGE_KEY : String := "retro-polaroid-photos"

/-- Constant from `src/index.tsx` line 14. -/
def MAX_STORED_PHOTOS : Nat := 50

/-- Constant from `src/index.tsx` line 15. -/
def DEVELOP_TIME_MS : Nat := 1800

/-! ### Frame normalizer (`processImage`, lines 27-48) -/

/-- Interface of the video source collaborator: the core reads only the
native dimensions `videoWidth` and `videoHeight` at capture time
(`src/index.tsx` lines 37-39). -/
structure VideoSource where
  videoWidth : Nat
  videoHeight : Nat
deriving DecidableEq

/-- One `drawImage` call: the source rectangle `(sx, sy, sw, sh)` is mapped
onto the destination rectangle `(dx, dy, dw, dh)`. Coordinates are rationals
because the halved offsets computed in `processImage` can be fractional. -/
structure DrawImageCall where
  sx : ℚ
  sy : ℚ
  sw : ℚ
  sh : ℚ
  dx : ℚ
  dy : ℚ
  dw : ℚ
  dh : ℚ
deriving DecidableEq

/-- The canvas state built by `processImage` once a 2d context is available:
its dimensions, the single `drawImage` call it performs, and whether the warm
tint overlay fill was applied. -/
structure NormalizerCanvas where
  width : Nat
  height : Nat
  draw : DrawImageCall
  tintApplied : Bool
deriving DecidableEq

/-- Canvas construction of `processImage`, `src/index.tsx` lines 28-45: a
600 x 600 canvas; `minDim = min(videoWidth, videoHeight)`;
`startX = (videoWidth - minDim) / 2`; `startY = (videoHeight - minDim) / 2`;
`drawImage(video, startX, startY, minDim, minDim, 0, 0, 600, 600)`; then the
`rgba(100, 50, 0, 0.1)` overlay fill across the whole square. -/
def processImageCanvas (video : VideoSource) : NormalizerCanvas :=
  let size : Nat := 600
  let minDim : Nat := Nat.min video.videoWidth video.videoHeight
  let startX : ℚ := ((video.videoWidth : ℚ) - (minDim : ℚ)) / 2
  let startY : ℚ := ((video.videoHeight : ℚ) - (minDim : ℚ)) / 2
  { width := size
    height := size
    draw :=
      { sx := startX, sy := startY, sw := (minDim : ℚ), sh := (minDim : ℚ)
        dx := 0, dy := 0, dw := (size : ℚ), dh := (size : ℚ) }
    tintApplied := true }

/-- Interface model of `canvas.toDataURL("image/jpeg", 0.7)` used at
`src/index.tsx` line 47: a platform primitive that always yields a data URL
string carrying the scheme prefix, never the empty string, determined by the
canvas contents. The pixel payload itself is outside the embedding; no claim
depends on it, only on the payload being non-empty and a function of the
canvas (in particular a zero-area source still yields a blank but valid data
URL, because `drawImage` with an empty source rectangle draws nothing and
does not fail). -/
def encodeJpegDataUrl (canvas : NormalizerCanvas) : String :=
  "data:image/jpeg;base64," ++ toString canvas.width ++ "x" ++ toString canvas.height

/-- `processImage`, `src/index.tsx` lines 27-48: returns the empty string
when no 2d context can be obtained (line 34), otherwise builds the canvas
and encodes it as a JPEG data URL. -/
def processImage (ctxAvailable : Bool) (video : VideoSource) : String :=
  if ctxAvailable then encodeJpegDataUrl (processImageCanvas video) else ""

/-! ### App state: photo store and develop state tracker (lines 416-460) -/

/-- A pending `setTimeout` scheduled by `handleCapture` (lines 452-454):
`photoId` is the id of the photo whose develop window it was scheduled for
(recorded for specification purposes only; the callback closure in the
source captures nothing) and `fireAt` the absolute time it fires,
`capture time + DEVELOP_TIME_MS`. -/
structure DevelopTimer where
  photoId : String
  fireAt : Nat
deriving DecidableEq

/-- The mutable state of `App` (`src/index.tsx` lines 416-418): the photo
list (newest first), the tracked developing photo id (`recentPhotoId`,
`null` modelled as `none`), plus the outstanding develop timers. -/
structure AppState where
  photos : List Photo
  recentPhotoId : Option String
  pendingTimers : List DevelopTimer
deriving DecidableEq

/-- Initial `App` state: `useState([])` and `useState(null)`. -/
def initialAppState : AppState :=
  { photos := [], recentPhotoId := none, pendingTimers := [] }

/-- The `newPhoto` record built by `handleCapture` (`src/index.tsx` lines
442-446) at millisecond time `now`: `id = Date.now().toString()` and
`timestamp = Date.now()` (both calls land in the same millisecond `now`). -/
def newPhotoAt (now : Nat) (dataUrl : String) : Photo :=
  { id := toString now, dataUrl := dataUrl, timestamp := now }

/-- `handleCapture`, `src/index.tsx` lines 441-455, run at millisecond time
`now`: builds `newPhoto`, prepends it to `photos`, sets `recentPhotoId` to
the new id, and schedules a timeout for `DEVELOP_TIME_MS` from now. -/
def handleCapture (now : Nat) (dataUrl : String) (s : AppState) : AppState :=
  let newPhoto : Photo := newPhotoAt now dataUrl
  { photos := newPhoto :: s.photos
    recentPhotoId := some newPhoto.id
    pendingTimers := { photoId := newPhoto.id, fireAt := now + DEVELOP_TIME_MS } :: s.pendingTimers }

/-- Firing of one scheduled develop timeout. The callback registered at
`src/index.tsx` lines 452-454 is `setRecentPhotoId(null)`: it sets the
tracked id to `null` unconditionally, without comparing the timer with the
currently tracked photo id. -/
def developTimerFires (timer : DevelopTimer) (s : AppState) : AppState :=
  { photos := s.photos
    recentPhotoId := none
    pendingTimers := s.pendingTimers.erase timer }

/-- `handleDelete`, `src/index.tsx` lines 457-460:
`setPhotos(prev => prev.filter(p => p.id !== id))`. -/
def handleDelete (id : String) (s : AppState) : AppState :=
  { s with photos := s.photos.filter (fun p => p.id != id) }

/-- The developing flag `App` passes to each rendered photo
(`src/index.tsx` line 491): `photo.id === recentPhotoId`. -/
def isDeveloping (s : AppState) (photoId : String) : Bool :=
  s.recentPhotoId == some photoId

/-- `takePhoto`, `src/index.tsx` lines 327-344: returns without capturing
when no video element is mounted or a print is already in progress;
otherwise it runs `processImage` on the video element and passes the result
to `onCapture` (which `App` wires to `handleCapture`) without inspecting
it. -/
def takePhoto (videoPresent printing ctxAvailable : Bool) (video : VideoSource)
    (now : Nat) (s : AppState) : AppState :=
  if videoPresent && !printing then
    handleCapture now (processImage ctxAvailable video) s
  else s

/-! ### Persistence effects (lines 421-439)

The persistence medium holds, under the single key `STORAGE_KEY`, the JSON
serialization of the photo array. JSON serialization is modelled at the
interface: on records of two strings and an integer timestamp,
`JSON.stringify` is injective and `JSON.parse` inverts it, so
`StoredData.value ps` stands for the serialized form of the list `ps`,
`StoredData.malformed` for a present string that `JSON.parse` rejects, and
`StoredData.absent` for a missing key (`getItem` returning `null`). -/

/-- Contents of the persistence medium under `STORAGE_KEY`. -/
inductive StoredData where
  | absent
  | malformed
  | value (photos : List Photo)
deriving DecidableEq

/-- The save effect, `src/index.tsx` lines 433-439:
`localStorage.setItem(STORAGE_KEY, JSON.stringify(photos.slice(0, MAX_STORED_PHOTOS)))`.
Only the first `MAX_STORED_PHOTOS` entries are written; the in-memory list
is left as is. -/
def saveEffect (photos : List Photo) : StoredData :=
  StoredData.value (photos.take MAX_STORED_PHOTOS)

/-- The load effect, `src/index.tsx` lines 421-430: reads the stored value;
when it is absent the `if (stored)` guard leaves the state at `[]`; when
`JSON.parse` throws, the `catch` swallows the error and the state stays at
`[]`; otherwise the parsed list is installed. No error is surfaced: the
function is total. -/
def loadEffect : StoredData → List Photo
  | StoredData.absent => []
  | StoredData.malformed => []
  | StoredData.value ps => ps

/-! ### Frame composer and export actions (lines 51-112, 166-205) -/

/-- The composite canvas produced by `generatePolaroidCanvas`
(`src/index.tsx` lines 51-112), modelled by the data the claims reference:
its dimensions, the data URL the photo image is decoded from, and the
timestamp passed to `formatDate` for the caption. The drawing and text
primitives are platform calls outside the embedding. -/
structure Composite where
  width : Nat
  height : Nat
  imageSrc : String
  captionTimestamp : Nat
deriving DecidableEq

/-- `generatePolaroidCanvas`, `src/index.tsx` lines 51-112: decodes
`photo.dataUrl`, allocates a canvas of `(600 + 2 * 40) x (600 + 40 + 120)`,
draws the decoded image, and renders `formatDate(photo.timestamp)` in the
caption band. -/
def generatePolaroidCanvas (photo : Photo) : Composite :=
  let photoSize : Nat := 600
  let paddingX : Nat := 40
  let paddingTop : Nat := 40
  let paddingBottom : Nat := 120
  { width := photoSize + paddingX * 2
    height := photoSize + paddingTop + paddingBottom
    imageSrc := photo.dataUrl
    captionTimestamp := photo.timestamp }

/-- Filename used by `handleDownload`, `src/index.tsx` line 196. -/
def downloadFilename (photo : Photo) : String :=
  "polaroid-" ++ photo.id ++ ".png"

/-- The controls `InstantPhoto` renders for one photo (`src/index.tsx`
lines 207-291): the delete button is rendered only when `developing` is
false (line 242), the copy and download buttons are rendered only when
`developing` is false (line 265) and carry `disabled={isProcessing}`
(lines 273, 281). -/
structure InstantPhotoView where
  deleteButtonShown : Bool
  exportButtonsShown : Bool
  exportButtonsDisabled : Bool
deriving DecidableEq

/-- The view of one `InstantPhoto` as a function of its `developing` flag
and its local `isProcessing` state. -/
def instantPhotoView (developing isProcessing : Bool) : InstantPhotoView :=
  { deleteButtonShown := !developing
    exportButtonsShown := !developing
    exportButtonsDisabled := isProcessing }

/-- The view `App` renders for photo `p` in state `s` (`src/index.tsx`
lines 487-494): `developing := (p.id == recentPhotoId)`. -/
def appPhotoView (s : AppState) (p : Photo) (isProcessing : Bool) : InstantPhotoView :=
  instantPhotoView (isDeveloping s p.id) isProcessing

/-! ### Derived scenario used by several claims -/

/-- The app state after `n` captures in sequence at millisecond times
`0, 1, ..., n - 1`, each through `handleCapture`. -/
def afterNCaptures (n : Nat) : AppState :=
  (List.range n).foldl (fun s t => handleCapture t ("d" ++ toString t) s) initialAppState

/-! ### Helper lemmas: injectivity of the decimal representation of Nat -/

theorem digitChar_injOn_lt_ten :
    ∀ a < 10, ∀ b < 10, Nat.digitChar a = Nat.digitChar b → a = b := by decide

theorem map_digitChar_inj : ∀ (l1 l2 : List Nat),
    (∀ x ∈ l1, x < 10) → (∀ x ∈ l2, x < 10) →
    l1.map Nat.digitChar = l2.map Nat.digitChar → l1 = l2
  | [], [], _, _, _ => rfl
  | [], _ :: _, _, _, h => by simp at h
  | _ :: _, [], _, _, h => by simp at h
  | x :: l1, y :: l2, h1, h2, h => by
    simp only [List.map_cons, List.cons.injEq] at h
    have hx := h1 x (List.mem_cons_self ..)
    have hy := h2 y (List.mem_cons_self ..)
    have hxy := digitChar_injOn_lt_ten x hx y hy h.1
    subst hxy
    have ht := map_digitChar_inj l1 l2 (fun z hz => h1 z (List.mem_cons_of_mem _ hz))
      (fun z hz => h2 z (List.mem_cons_of_mem _ hz)) h.2
    rw [ht]

theorem toDigitsCore_eq (fuel : Nat) : ∀ (n : Nat) (ds : List Char), 0 < fuel → n < 10 ^ fuel →
    Nat.toDigitsCore 10 fuel n ds =
      (if n = 0 then ['0'] else ((Nat.digits 10 n).map Nat.digitChar).reverse) ++ ds := by
  induction fuel with
  | zero => intro n ds hf; omega
  | succ f ih =>
    intro n ds _ hn
    simp only [Nat.toDigitsCore]
    by_cases h10 : n / 10 = 0
    · have hlt : n < 10 := by omega
      simp only [h10, if_pos rfl]
      by_cases h0 : n = 0
      · subst h0; rfl
      · have hm : n % 10 = n := Nat.mod_eq_of_lt hlt
        rw [if_neg h0, Nat.digits_of_lt 10 n h0 hlt]
        simp [hm]
    · have h0 : n ≠ 0 := by intro h; apply h10; simp [h]
      have hge : 10 ≤ n := by
        by_contra hc
        exact h10 (Nat.div_eq_of_lt (by omega))
      have hf' : 0 < f := by
        rcases Nat.eq_zero_or_pos f with h | h
        · subst h; simp [pow_succ, pow_zero] at hn; omega
        · exact h
      have hn' : n / 10 < 10 ^ f := by
        rw [pow_succ'] at hn
        exact Nat.div_lt_of_lt_mul hn
      rw [if_neg h10, ih (n / 10) (Nat.digitChar (n % 10) :: ds) hf' hn', if_neg h10,
        if_neg h0, Nat.digits_def' (by norm_num : (1:Nat) < 10) (by omega : 0 < n)]
      simp [List.reverse_cons, List.append_assoc]

theorem toDigits_eq_digits (n : Nat) :
    Nat.toDigits 10 n =
      if n = 0 then ['0'] else ((Nat.digits 10 n).map Nat.digitChar).reverse := by
  have hb : n < 10 ^ (n + 1) :=
    lt_of_lt_of_le (Nat.lt_pow_self (by norm_num) n)
      (Nat.pow_le_pow_right (by norm_num) (Nat.le_succ n))
  have h := toDigitsCore_eq (n + 1) n [] (Nat.succ_pos n) hb
  simpa [Nat.toDigits] using h

theorem natRepr_injective : Function.Injective Nat.repr := by
  intro a b h
  have hd : Nat.toDigits 10 a = Nat.toDigits 10 b := by
    have h2 := congrArg String.data h
    simpa [Nat.repr, List.asString] using h2
  rw [toDigits_eq_digits, toDigits_eq_digits] at hd
  have key : ∀ m : Nat, m ≠ 0 → ((Nat.digits 10 m).map Nat.digitChar).reverse = ['0'] → False := by
    intro m hm hrev
    have hmap : (Nat.digits 10 m).map Nat.digitChar = ['0'] := by
      have := congrArg List.reverse hrev
      simpa using this
    cases hL : Nat.digits 10 m with
    | nil => rw [hL] at hmap; simp at hmap
    | cons d L =>
      rw [hL] at hmap
      simp only [List.map_cons, List.cons.injEq, List.map_eq_nil_iff] at hmap
      have hd10 : d < 10 := Nat.digits_lt_base (by norm_num) (hL ▸ List.mem_cons_self d L)
      have hd0 : d = 0 := digitChar_injOn_lt_ten d hd10 0 (by norm_num) (by simpa using hmap.1)
      have := Nat.ofDigits_digits 10 m
      rw [hL, hmap.2, hd0] at this
      simp [Nat.ofDigits] at this
      exact hm this.symm
  by_cases ha : a = 0 <;> by_cases hb : b = 0
  · rw [ha, hb]
  · rw [if_pos ha, if_neg hb] at hd
    exact absurd (key b hb hd.symm) (by simp)
  · rw [if_neg ha, if_pos hb] at hd
    exact absurd (key a ha hd) (by simp)
  · rw [if_neg ha, if_neg hb] at hd
    have hrev := List.reverse_injective hd
    have hdig := map_digitChar_inj _ _
      (fun x hx => Nat.digits_lt_base (by norm_num) hx)
      (fun x hx => Nat.digits_lt_base (by norm_num) hx) hrev
    calc a = Nat.ofDigits 10 (Nat.digits 10 a) := (Nat.ofDigits_digits 10 a).symm
      _ = Nat.ofDigits 10 (Nat.digits 10 b) := by rw [hdig]
      _ = b := Nat.ofDigits_digits 10 b

theorem toString_nat_eq_repr (n : Nat) : toString n = Nat.repr n := rfl

theorem toString_nat_injective : Function.Injective (fun n : Nat => toString n) := by
  intro a b h
  exact natRepr_injective h


/-! ### Additional helper lemmas -/

theorem encodeJpegDataUrl_ne_empty (c : NormalizerCanvas) : encodeJpegDataUrl c ≠ "" := by
  intro h
  have h1 : (encodeJpegDataUrl c).length = 0 := by rw [h]; rfl
  rw [encodeJpegDataUrl, String.length_append, String.length_append, String.length_append] at h1
  have h23 : ("data:image/jpeg;base64,").length = 23 := rfl
  rw [h23] at h1
  omega

theorem processImageCanvas_draw (v : VideoSource) :
    (processImageCanvas v).draw =
      { sx := ((v.videoWidth : ℚ) - (Nat.min v.videoWidth v.videoHeight : ℚ)) / 2
        sy := ((v.videoHeight : ℚ) - (Nat.min v.videoWidth v.videoHeight : ℚ)) / 2
        sw := (Nat.min v.videoWidth v.videoHeight : ℚ)
        sh := (Nat.min v.videoWidth v.videoHeight : ℚ)
        dx := 0, dy := 0, dw := ((600 : Nat) : ℚ), dh := ((600 : Nat) : ℚ) } := rfl

/-! ### Claims -/

/-- C1, counterexample: the claim says that after each add the in-memory
store holds at most 50 photos, the trim happening on every write; but after
51 captures in sequence the in-memory sequence holds all 51 photos, not
50. -/
theorem C1_counterexample :
    (afterNCaptures 51).photos.length = 51 ∧
    ¬ (afterNCaptures 51).photos.length = 50 := by decide

/-- C1, amended: only the persisted copy is trimmed on every write: the
persisted form never exceeds 50 entries, and after adding 51 photos in
sequence it holds exactly the 50 most recent (timestamps 50 down to 1, the
oldest photo evicted), while the in-memory sequence is not trimmed and still
holds all 51 photos (timestamps 50 down to 0). -/
theorem C1_amended_thm :
    (∀ ps : List Photo, (loadEffect (saveEffect ps)).length ≤ MAX_STORED_PHOTOS) ∧
    (afterNCaptures 51).photos.length = 51 ∧
    ((afterNCaptures 51).photos.map Photo.timestamp = (List.range 51).reverse) ∧
    ((loadEffect (saveEffect (afterNCaptures 51).photos)).map Photo.timestamp =
      (List.range 50).reverse.map (fun t => t + 1)) := by
  refine ⟨fun ps => ?_, by decide, by decide, by decide⟩
  simp only [loadEffect, saveEffect, List.length_take]
  omega

/-- C2, counterexample: two captures within the same millisecond (both at
time 5) receive the same id "5", so an id repeats in the store. -/
theorem C2_counterexample :
    ((handleCapture 5 "b" (handleCapture 5 "a" initialAppState)).photos.map Photo.id
      = ["5", "5"]) ∧
    ¬ ((handleCapture 5 "b" (handleCapture 5 "a" initialAppState)).photos.map Photo.id).Nodup := by
  decide

/-- C2, amended: the id of a capture is the decimal string of its
millisecond timestamp, so two captures at distinct millisecond timestamps
receive distinct ids, but two captures within the same millisecond receive
identical ids regardless of their payloads. -/
theorem C2_amended_thm (t1 t2 now : Nat) (d1 d2 d3 d4 : String) (h : t1 ≠ t2) :
    (newPhotoAt t1 d1).id ≠ (newPhotoAt t2 d2).id ∧
    (newPhotoAt now d3).id = (newPhotoAt now d4).id := by
  refine ⟨fun hid => h (natRepr_injective hid), rfl⟩

/-- Witness for C2_amended_thm at timestamps 1 and 2. -/
theorem C2_witness :
    (1 : Nat) ≠ 2 ∧
    ((newPhotoAt 1 "a").id ≠ (newPhotoAt 2 "b").id ∧
      (newPhotoAt 7 "x").id = (newPhotoAt 7 "y").id) :=
  ⟨by decide, C2_amended_thm 1 2 7 "a" "b" "x" "y" (by decide)⟩

/-- C3, counterexample: capture A at time 0 (id "0"), capture B at time
1000 (id "1000") while A is still developing; the stale timer scheduled for
A (fires at 1800, before the end of the 1800 ms window of B at 2800) is
outstanding, and when it fires it is not a no-op: it ends the Developing
state of the newer photo B. -/
theorem C3_counterexample :
    (isDeveloping (handleCapture 1000 "d2" (handleCapture 0 "d1" initialAppState)) "1000"
      = true) ∧
    (({ photoId := "0", fireAt := DEVELOP_TIME_MS } : DevelopTimer) ∈
      (handleCapture 1000 "d2" (handleCapture 0 "d1" initialAppState)).pendingTimers) ∧
    (DEVELOP_TIME_MS < 1000 + DEVELOP_TIME_MS) ∧
    (isDeveloping
      (developTimerFires { photoId := "0", fireAt := DEVELOP_TIME_MS }
        (handleCapture 1000 "d2" (handleCapture 0 "d1" initialAppState))) "1000" = false) := by
  decide

/-- C3, amended: a new capture does reassign the tracker to the new photo
id, but the develop-window timer callback performs no identity check: when
any outstanding timer fires (stale or not) it unconditionally clears the
tracked id, so no photo reports Developing afterwards; in particular a
superseded timer of a previous photo ends the Developing state of the newer
photo before its full 1800 ms window. -/
theorem C3_amended_thm (timer : DevelopTimer) (s : AppState) (now : Nat) (d : String) :
    ((handleCapture now d s).recentPhotoId = some (newPhotoAt now d).id) ∧
    ((developTimerFires timer s).recentPhotoId = none) ∧
    (∀ id, isDeveloping (developTimerFires timer s) id = false) :=
  ⟨rfl, rfl, fun _ => rfl⟩

/-- C4, counterexample: when no 2d context is available `processImage`
returns the empty payload, yet `takePhoto` still passes it to `onCapture`:
a Photo with empty imageData is created and entered into the store
(here, a store holding exactly the Photo with id "7" and empty dataUrl);
moreover a zero-area source does not even fail: it yields a non-empty
(blank) payload. -/
theorem C4_counterexample :
    (processImage false { videoWidth := 640, videoHeight := 480 } = "") ∧
    ((takePhoto true false false { videoWidth := 640, videoHeight := 480 } 7
        initialAppState).photos = [{ id := "7", dataUrl := "", timestamp := 7 }]) ∧
    (processImage true { videoWidth := 0, videoHeight := 0 } ≠ "") := by decide

/-- C4, amended: if no rendering context can be obtained the normalizer
produces the empty payload, but the caller does not check the payload: a
Photo carrying the empty payload is still created and entered into the
store; and a zero-area video source is not a failure at all, the normalizer
then producing a non-empty (blank) payload. -/
theorem C4_amended_thm (video : VideoSource) (now : Nat) (s : AppState) :
    (processImage false video = "") ∧
    ((takePhoto true false false video now s).photos = newPhotoAt now "" :: s.photos) ∧
    (processImage true video ≠ "") := by
  refine ⟨rfl, rfl, ?_⟩
  simpa [processImage] using encodeJpegDataUrl_ne_empty (processImageCanvas video)

/-- C5, counterexample: for a freshly captured (hence Developing) photo the
copy and download controls are not rendered, so export is not available
while the photo is Developing. -/
theorem C5_counterexample :
    (isDeveloping (handleCapture 5 "d" initialAppState) (newPhotoAt 5 "d").id = true) ∧
    ((appPhotoView (handleCapture 5 "d" initialAppState) (newPhotoAt 5 "d")
        false).exportButtonsShown = false) := by decide

/-- C5, amended: both export controls are hidden while a photo is
Developing and shown once it is not; when invoked, the composer uses
whatever imageData is currently stored for the photo, and the download
filename is derived from the photo id. -/
theorem C5_amended_thm (p : Photo) (isProcessing : Bool) :
    ((instantPhotoView true isProcessing).exportButtonsShown = false) ∧
    ((instantPhotoView false isProcessing).exportButtonsShown = true) ∧
    ((generatePolaroidCanvas p).imageSrc = p.dataUrl) ∧
    (downloadFilename p = "polaroid-" ++ p.id ++ ".png") :=
  ⟨rfl, rfl, rfl, rfl⟩

/-- C6: for every video source with positive native dimensions, the
normalizer canvas is exactly 600 x 600, the crop source rectangle is the
square of side min(videoWidth, videoHeight) at offsets
((videoWidth - minDim) / 2, (videoHeight - minDim) / 2) - centered, as
witnessed by the equal-margin equations - and it is scaled onto the full
(0, 0, 600, 600) destination, so the output is square of fixed size
regardless of the input aspect ratio. -/
theorem C6_thm (v : VideoSource) (_hw : 0 < v.videoWidth) (_hh : 0 < v.videoHeight) :
    ((processImageCanvas v).width = 600 ∧ (processImageCanvas v).height = 600) ∧
    ((processImageCanvas v).draw.sw = (Nat.min v.videoWidth v.videoHeight : ℚ)) ∧
    ((processImageCanvas v).draw.sh = (Nat.min v.videoWidth v.videoHeight : ℚ)) ∧
    ((processImageCanvas v).draw.sx
      = ((v.videoWidth : ℚ) - (Nat.min v.videoWidth v.videoHeight : ℚ)) / 2) ∧
    ((processImageCanvas v).draw.sy
      = ((v.videoHeight : ℚ) - (Nat.min v.videoWidth v.videoHeight : ℚ)) / 2) ∧
    (2 * (processImageCanvas v).draw.sx + (processImageCanvas v).draw.sw
      = (v.videoWidth : ℚ)) ∧
    (2 * (processImageCanvas v).draw.sy + (processImageCanvas v).draw.sh
      = (v.videoHeight : ℚ)) ∧
    ((processImageCanvas v).draw.dx = 0 ∧ (processImageCanvas v).draw.dy = 0 ∧
      (processImageCanvas v).draw.dw = ((600 : Nat) : ℚ) ∧
      (processImageCanvas v).draw.dh = ((600 : Nat) : ℚ)) := by
  rw [processImageCanvas_draw]
  refine ⟨⟨rfl, rfl⟩, rfl, rfl, rfl, rfl, by ring, by ring, rfl, rfl, rfl, rfl⟩

/-- Witness for C6_thm at a 1920 x 1080 source. -/
theorem C6_witness :
    (0 < (1920 : Nat)) ∧ (0 < (1080 : Nat)) ∧
    ((processImageCanvas { videoWidth := 1920, videoHeight := 1080 }).width = 600 ∧
      (processImageCanvas { videoWidth := 1920, videoHeight := 1080 }).height = 600) ∧
    (2 * (processImageCanvas { videoWidth := 1920, videoHeight := 1080 }).draw.sx +
        (processImageCanvas { videoWidth := 1920, videoHeight := 1080 }).draw.sw
      = (({ videoWidth := 1920, videoHeight := 1080 } : VideoSource).videoWidth : ℚ)) :=
  ⟨by decide, by decide,
    (C6_thm { videoWidth := 1920, videoHeight := 1080 } (by decide) (by decide)).1,
    (C6_thm { videoWidth := 1920, videoHeight := 1080 } (by decide) (by decide)).2.2.2.2.2.1⟩

/-- C7: loading the persisted representation yields the stored ordered
sequence when it is well-formed, and the empty sequence when the persisted
data is absent or malformed; the load path is a total function, so no error
is ever surfaced to the caller. -/
theorem C7_thm :
    loadEffect StoredData.absent = [] ∧
    loadEffect StoredData.malformed = [] ∧
    ∀ ps : List Photo, loadEffect (StoredData.value ps) = ps :=
  ⟨rfl, rfl, fun _ => rfl⟩

/-- C8: deletion removes exactly the entries bearing the requested id while
keeping the remainder in relative order (the result is a sublist containing
every photo with a different id), deleting a non-existent id leaves the
state unchanged, and deletion is idempotent. -/
theorem C8_thm (id : String) (s : AppState) :
    (∀ p ∈ (handleDelete id s).photos, p.id ≠ id) ∧
    ((handleDelete id s).photos.Sublist s.photos) ∧
    (∀ p ∈ s.photos, p.id ≠ id → p ∈ (handleDelete id s).photos) ∧
    ((∀ p ∈ s.photos, p.id ≠ id) → handleDelete id s = s) ∧
    (handleDelete id (handleDelete id s) = handleDelete id s) := by
  refine ⟨?_, ?_, ?_, ?_, ?_⟩
  · intro p hp
    have h := List.of_mem_filter hp
    simpa using h
  · exact List.filter_sublist _
  · intro p hp hne
    exact List.mem_filter.mpr ⟨hp, by simpa using hne⟩
  · intro h
    have heq : s.photos.filter (fun p => p.id != id) = s.photos :=
      List.filter_eq_self.mpr (fun p hp => by simpa using h p hp)
    simp [handleDelete, heq]
  · simp [handleDelete, List.filter_filter]

/-- Witness for C8_thm: deleting the absent id "9" from a one-photo store
is a no-op. -/
theorem C8_witness :
    handleDelete "9"
        { photos := [newPhotoAt 3 "a"], recentPhotoId := none, pendingTimers := [] } =
      { photos := [newPhotoAt 3 "a"], recentPhotoId := none, pendingTimers := [] } :=
  (C8_thm "9"
    { photos := [newPhotoAt 3 "a"], recentPhotoId := none, pendingTimers := [] }).2.2.2.1
    (by decide)

/-- C9, counterexample: after 51 adds the persisted-then-loaded sequence is
not the in-memory sequence (the persisted copy was truncated to 50). -/
theorem C9_counterexample :
    loadEffect (saveEffect (afterNCaptures 51).photos) ≠ (afterNCaptures 51).photos := by
  decide

/-- C9, amended: persisting the store and loading it back reproduces
exactly the first 50 entries of the sequence (order and all field values
preserved); it reproduces the entire sequence precisely when the sequence
has at most 50 entries. -/
theorem C9_amended_thm (ps : List Photo) :
    (loadEffect (saveEffect ps) = ps.take MAX_STORED_PHOTOS) ∧
    (ps.length ≤ MAX_STORED_PHOTOS → loadEffect (saveEffect ps) = ps) :=
  ⟨rfl, fun h => List.take_of_length_le h⟩

/-- Witness for C9_amended_thm on a two-photo store. -/
theorem C9_witness :
    ((afterNCaptures 2).photos.length ≤ MAX_STORED_PHOTOS) ∧
    (loadEffect (saveEffect (afterNCaptures 2).photos) = (afterNCaptures 2).photos) :=
  ⟨by decide, (C9_amended_thm (afterNCaptures 2).photos).2 (by decide)⟩

/-- C10: while a photo is Developing the interface renders no delete
control for it, so it cannot be removed through user deletion; once the
tracker is cleared by a develop timer firing, the delete control is
rendered again. -/
theorem C10_thm (s : AppState) (p : Photo) (isProcessing : Bool) (timer : DevelopTimer)
    (h : isDeveloping s p.id = true) :
    ((appPhotoView s p isProcessing).deleteButtonShown = false) ∧
    ((appPhotoView (developTimerFires timer s) p isProcessing).deleteButtonShown = true) := by
  constructor
  · simp [appPhotoView, instantPhotoView, h]
  · rfl

/-- Witness for C10_thm on a freshly captured photo. -/
theorem C10_witness :
    (isDeveloping (handleCapture 5 "d" initialAppState) (newPhotoAt 5 "d").id = true) ∧
    ((appPhotoView (handleCapture 5 "d" initialAppState) (newPhotoAt 5 "d")
        false).deleteButtonShown = false) :=
  ⟨by decide,
    (C10_thm (handleCapture 5 "d" initialAppState) (newPhotoAt 5 "d") false
      { photoId := "5", fireAt := 1805 } (by decide)).1⟩

end Alvart
